import Mathlib

/-!
Shallow embedding of `src/cybertruck/js/cybermodel.js` (the `CybermodelViewer`
class) and verification of its specification.

Numbers held in JavaScript variables are modelled as rationals; the host's
`Math` object (whose `PI` constant and `tan` function return double-precision
values) is passed in as an uninterpreted structure `JsMath`.  Event handlers
become pure state transformers on `ViewerState`; a handler that dereferences
`this.model` while it is still `undefined` (a JavaScript `TypeError`) is
modelled as returning `none`.
-/

namespace Cybermodel

/-- A 2-D client position, as carried by mouse and touch events
(`e.clientX`, `e.clientY`). -/
structure Pos where
  x : ℚ
  y : ℚ
deriving DecidableEq, Repr

/-- An Euler rotation triple, mirroring `THREE.Object3D.rotation`. -/
structure Rot where
  x : ℚ
  y : ℚ
  z : ℚ
deriving DecidableEq, Repr

/-- A 3-D vector, mirroring `THREE.Vector3`. -/
structure Vec3 where
  x : ℚ
  y : ℚ
  z : ℚ
deriving DecidableEq, Repr

/-- A child node of the loaded gltf scene, with the fields that
`optimizeModel` touches (`child.isMesh`, `child.material`,
`metalness`, `roughness`, `castShadow`, `receiveShadow`). -/
structure Mesh where
  isMesh : Bool
  hasMaterial : Bool
  metalness : ℚ
  roughness : ℚ
  castShadow : Bool
  receiveShadow : Bool
deriving DecidableEq, Repr

/-- The loaded model node (`gltf.scene`): its rotation, the bounding box
that `new THREE.Box3().setFromObject(this.model)` reports (center and
size), and its traversable children. -/
structure Model where
  rotation : Rot
  boxCenter : Vec3
  boxSize : Vec3
  meshes : List Mesh
deriving DecidableEq, Repr

/-- A light added by `addLights`: colour, intensity and (for the
directional light) a position. -/
structure Light where
  color : Nat
  intensity : ℚ
  position : Option Vec3
deriving DecidableEq, Repr

/-- The `THREE.PerspectiveCamera` state the script reads and writes:
constructor arguments plus the position set by `camera.position.set`
and the target passed to `camera.lookAt`. -/
structure Camera where
  fov : ℚ
  aspect : ℚ
  near : ℚ
  far : ℚ
  position : Vec3
  lookTarget : Vec3
deriving DecidableEq, Repr

/-- The `.loading-indicator` DOM element: the two properties the script
writes (`style.display` and `textContent`). -/
structure LoadingIndicator where
  textContent : String
  display : String
deriving DecidableEq, Repr

/-- The host's `Math` library as used by `fitModelToContainer`:
`Math.PI` and `Math.tan` (double-precision, hence rational, values). -/
structure JsMath where
  pi : ℚ
  tan : ℚ → ℚ

/-- The whole mutable state of a `CybermodelViewer` instance: the
instance fields of the class (`isAutoRotating`, `isDragging`,
`previousPosition`, `model`), the camera, the renderer's drawing-buffer
size set by `renderer.setSize`, the lights added to the scene, whether
`scene.add(this.model)` has run, and the loading indicator.  `model` is
`none` until the loader's completion callback assigns it. -/
structure ViewerState where
  isAutoRotating : Bool
  isDragging : Bool
  previousPosition : Pos
  model : Option Model
  camera : Camera
  rendererWidth : ℚ
  rendererHeight : ℚ
  lights : List Light
  modelInScene : Bool
  loadingIndicator : LoadingIndicator
deriving DecidableEq, Repr

/-- The camera built in `initScene`:
`new THREE.PerspectiveCamera(45, width/height, 0.1, 1000)`.  A fresh
THREE camera sits at the origin looking down the negative z axis. -/
def initCamera (aspect : ℚ) : Camera :=
  { fov := 45, aspect := aspect, near := 0.1, far := 1000
    position := ⟨0, 0, 0⟩, lookTarget := ⟨0, 0, -1⟩ }

/-- The two lights added by `addLights`: an ambient light
`(0xffffff, 0.5)` and a directional light `(0xffffff, 0.8)` positioned
at `(5, 10, 5)`. -/
def initLights : List Light :=
  [ { color := 0xffffff, intensity := 0.5, position := none },
    { color := 0xffffff, intensity := 0.8, position := some ⟨5, 10, 5⟩ } ]

/-- `updateRendererSize`: reads the container's current width and height
(supplied by the environment), calls `renderer.setSize(width, height)`
and sets `camera.aspect = width / height`. -/
def updateRendererSize (w h : ℚ) (s : ViewerState) : ViewerState :=
  { s with rendererWidth := w, rendererHeight := h,
           camera := { s.camera with aspect := w / h } }

/-- The body of `fitModelToContainer` once the model's bounding box is
in hand: `maxDim = max(size.x, size.y, size.z)`,
`fovRad = fov * (PI / 180)`,
`cameraZ = |maxDim / (2 * tan(fovRad / 2))|`, then
`camera.position.set(0, size.y * 0.3, cameraZ * 1.8)` and
`camera.lookAt(center)`. -/
def fitCameraToModel (M : JsMath) (m : Model) (c : Camera) : Camera :=
  let maxDim := max m.boxSize.x (max m.boxSize.y m.boxSize.z)
  let fovRad := c.fov * (M.pi / 180)
  let cameraZ := |maxDim / (2 * M.tan (fovRad / 2))|
  { c with position := ⟨0, m.boxSize.y * 0.3, cameraZ * 1.8⟩,
           lookTarget := m.boxCenter }

/-- `fitModelToContainer`: computes the model's bounding box with
`new THREE.Box3().setFromObject(this.model)` and frames the camera.
If `this.model` is still `undefined`, `setFromObject` throws. -/
def fitModelToContainer (M : JsMath) (s : ViewerState) : Option ViewerState :=
  match s.model with
  | none => none
  | some m => some { s with camera := fitCameraToModel M m s.camera }

/-- The per-child body of `optimizeModel`'s traversal:
`if (child.isMesh && child.material)` set metalness `0.9`,
roughness `0.3`, and both shadow flags. -/
def optimizeMesh (c : Mesh) : Mesh :=
  if c.isMesh && c.hasMaterial then
    { c with metalness := 0.9, roughness := 0.3,
             castShadow := true, receiveShadow := true }
  else c

/-- `optimizeModel`: traverses every child of the model. -/
def optimizeModel (m : Model) : Model :=
  { m with meshes := m.meshes.map optimizeMesh }

/-- The first statement of `loadModel`:
`this.loadingIndicator.style.display = 'block'`. -/
def onLoadStart (s : ViewerState) : ViewerState :=
  { s with loadingIndicator := { s.loadingIndicator with display := "block" } }

/-- The loader's completion callback: assign `this.model = gltf.scene`,
`optimizeModel`, `scene.add(this.model)`, `fitModelToContainer` (the
model is now assigned, so framing succeeds), and hide the indicator. -/
def onLoadSuccess (M : JsMath) (gltfScene : Model) (s : ViewerState) : ViewerState :=
  let m := optimizeModel gltfScene
  { s with model := some m, modelInScene := true,
           camera := fitCameraToModel M m s.camera,
           loadingIndicator := { s.loadingIndicator with display := "none" } }

/-- The loader's error callback: log to the console (no state effect)
and set `this.loadingIndicator.textContent = 'Error loading model'`. -/
def onLoadError (s : ViewerState) : ViewerState :=
  { s with loadingIndicator :=
      { s.loadingIndicator with textContent := "Error loading model" } }

/-- The `reset-view` button's click listener: `fitModelToContainer()`
then `this.model.rotation.set(0, 0, 0)`. -/
def onResetView (M : JsMath) (s : ViewerState) : Option ViewerState :=
  match fitModelToContainer M s with
  | none => none
  | some s1 =>
    match s1.model with
    | none => none
    | some m => some { s1 with model := some { m with rotation := ⟨0, 0, 0⟩ } }

/-- The `toggle-rotation` button's click listener:
`this.isAutoRotating = !this.isAutoRotating`. -/
def onToggleRotation (s : ViewerState) : ViewerState :=
  { s with isAutoRotating := !s.isAutoRotating }

/-- `onMouseDown`: set the drag flag and record the pointer position. -/
def onMouseDown (e : Pos) (s : ViewerState) : ViewerState :=
  { s with isDragging := true, previousPosition := e }

/-- `handleRotation(clientX, clientY)`: deltas against
`this.previousPosition`, then `model.rotation.y += deltaX * 0.005`,
`model.rotation.x += deltaY * 0.005`, and store the new position.
Dereferences `this.model`. -/
def handleRotation (clientX clientY : ℚ) (s : ViewerState) : Option ViewerState :=
  match s.model with
  | none => none
  | some m =>
    let deltaX := clientX - s.previousPosition.x
    let deltaY := clientY - s.previousPosition.y
    some { s with
      model := some { m with rotation :=
        { m.rotation with
          y := m.rotation.y + deltaX * 0.005,
          x := m.rotation.x + deltaY * 0.005 } },
      previousPosition := ⟨clientX, clientY⟩ }

/-- `onMouseMove`: `if (!this.isDragging) return;` then
`handleRotation(e.clientX, e.clientY)`. -/
def onMouseMove (e : Pos) (s : ViewerState) : Option ViewerState :=
  if !s.isDragging then some s
  else handleRotation e.x e.y s

/-- `onMouseUp`: clear the drag flag. -/
def onMouseUp (s : ViewerState) : ViewerState :=
  { s with isDragging := false }

/-- `onTouchStart`: set the drag flag and record the first touch
position. -/
def onTouchStart (touch0 : Pos) (s : ViewerState) : ViewerState :=
  { s with isDragging := true, previousPosition := touch0 }

/-- `onTouchMove`: `if (!this.isDragging) return;` then
`handleRotation(e.touches[0].clientX, e.touches[0].clientY)`. -/
def onTouchMove (touch0 : Pos) (s : ViewerState) : Option ViewerState :=
  if !s.isDragging then some s
  else handleRotation touch0.x touch0.y s

/-- `onTouchEnd`: clear the drag flag. -/
def onTouchEnd (s : ViewerState) : ViewerState :=
  { s with isDragging := false }

/-- `onWindowResize`: `updateRendererSize()` (with the container's
current dimensions) then `fitModelToContainer()`. -/
def onWindowResize (M : JsMath) (w h : ℚ) (s : ViewerState) : Option ViewerState :=
  fitModelToContainer M (updateRendererSize w h s)

/-- One tick of `animate` (excluding the re-scheduling and the render
call, which do not touch viewer state):
`if (this.isAutoRotating) this.model.rotation.y += 0.005`.  The
dereference of `this.model` happens only when the flag is set. -/
def animateFrame (s : ViewerState) : Option ViewerState :=
  if s.isAutoRotating then
    match s.model with
    | none => none
    | some m =>
      some { s with model := some { m with rotation :=
        { m.rotation with y := m.rotation.y + 0.005 } } }
  else some s

/-- A mouse drag gesture: a press at `p0` followed by the listed move
events, with no intervening release. -/
def mouseDrag (p0 : Pos) (moves : List Pos) (s : ViewerState) : Option ViewerState :=
  moves.foldlM (fun st p => onMouseMove p st) (onMouseDown p0 s)

/-! ### Concrete states used to instantiate the theorems -/

/-- A sample loaded model. -/
def testModel : Model :=
  { rotation := ⟨1, 2, 3⟩, boxCenter := ⟨0, 0, 0⟩,
    boxSize := ⟨2, 4, 6⟩, meshes := [] }

/-- A sample host math library (`tan` constantly `1`). -/
def testMath : JsMath := { pi := 3, tan := fun _ => 1 }

/-- A viewer state after a successful load: model assigned and in the
scene, not dragging, not auto-rotating. -/
def testState : ViewerState :=
  { isAutoRotating := false, isDragging := false, previousPosition := ⟨0, 0⟩,
    model := some testModel, camera := initCamera 2,
    rendererWidth := 800, rendererHeight := 400,
    lights := initLights, modelInScene := true,
    loadingIndicator := { textContent := "Loading Cybermodel...", display := "none" } }

/-- `testState` mid-drag, with the previous pointer position at
`(10, 20)`. -/
def testDragState : ViewerState :=
  { testState with isDragging := true, previousPosition := ⟨10, 20⟩ }

/-- `testState` with auto-rotate switched on. -/
def testAutoState : ViewerState :=
  { testState with isAutoRotating := true }

/-- A viewer state before (or after a failed) load: `model` is still
unassigned; auto-rotate has been switched on. -/
def testUnloadedState : ViewerState :=
  { testState with model := none, modelInScene := false, isAutoRotating := true }

/-- The camera obtained by framing `testModel` from `initCamera 2`
with `testMath`: `maxDim = 6`, `fovRad = 45 * (3/180) = 3/4`,
`cameraZ = |6 / (2 * 1)| = 3`, hence position `(0, 1.2, 5.4)`. -/
def testFitCamera : Camera :=
  { fov := 45, aspect := 2, near := 0.1, far := 1000,
    position := ⟨0, 1.2, 5.4⟩, lookTarget := ⟨0, 0, 0⟩ }

/-- The result of clicking reset-view in `testState`. -/
def testResetResult : ViewerState :=
  { testState with
    camera := testFitCamera,
    model := some { testModel with rotation := ⟨0, 0, 0⟩ } }

/-- The result of a window resize to `10 × 5` in `testState`. -/
def testResizeResult : ViewerState :=
  { testState with
    rendererWidth := 10, rendererHeight := 5,
    camera := testFitCamera }

end Cybermodel

namespace Cybermodel

/-! ### Theorems -/

/-- C7: while the drag flag is false, mouse-move and touch-move return
immediately and the whole viewer state is unchanged. -/
theorem C7_no_drag_no_rotation (s : ViewerState) (e p : Pos)
    (hd : s.isDragging = false) :
    onMouseMove e s = some s ∧ onTouchMove p s = some s := by
  simp [onMouseMove, onTouchMove, hd]

/-- Witness for C7 at `testState` (drag flag is false). -/
theorem C7_no_drag_no_rotation_witness :
    testState.isDragging = false ∧
    (onMouseMove ⟨7, 9⟩ testState = some testState ∧
     onTouchMove ⟨3, 4⟩ testState = some testState) :=
  ⟨by decide, C7_no_drag_no_rotation testState ⟨7, 9⟩ ⟨3, 4⟩ (by decide)⟩

/-- C8: the loader's error callback changes only the loading
indicator's text; the model reference (hence the rotation angles), the
camera, the scene contents, the renderer size, the drag flag, the
previous position and the auto-rotate flag are exactly as before. -/
theorem C8_error_callback_atomic (s : ViewerState) :
    (onLoadError s).loadingIndicator.textContent = "Error loading model" ∧
    (onLoadError s).loadingIndicator.display = s.loadingIndicator.display ∧
    (onLoadError s).model = s.model ∧
    (onLoadError s).camera = s.camera ∧
    (onLoadError s).isDragging = s.isDragging ∧
    (onLoadError s).previousPosition = s.previousPosition ∧
    (onLoadError s).isAutoRotating = s.isAutoRotating ∧
    (onLoadError s).rendererWidth = s.rendererWidth ∧
    (onLoadError s).rendererHeight = s.rendererHeight ∧
    (onLoadError s).lights = s.lights ∧
    (onLoadError s).modelInScene = s.modelInScene := by
  simp [onLoadError]

/-- C2: a drag-move event processed while the drag flag is set, for a
loaded model, adds `0.005 * (cx - px)` to the y rotation angle,
`0.005 * (cy - py)` to the x rotation angle, and stores `(cx, cy)` as
the previous position — for the mouse and the touch handler alike. -/
theorem C2_drag_move_rotation (s : ViewerState) (m : Model) (cx cy : ℚ)
    (hd : s.isDragging = true) (hm : s.model = some m) :
    onMouseMove ⟨cx, cy⟩ s =
      some { s with
        model := some { m with rotation :=
          { m.rotation with
            y := m.rotation.y + 0.005 * (cx - s.previousPosition.x),
            x := m.rotation.x + 0.005 * (cy - s.previousPosition.y) } },
        previousPosition := ⟨cx, cy⟩ } ∧
    onTouchMove ⟨cx, cy⟩ s =
      some { s with
        model := some { m with rotation :=
          { m.rotation with
            y := m.rotation.y + 0.005 * (cx - s.previousPosition.x),
            x := m.rotation.x + 0.005 * (cy - s.previousPosition.y) } },
        previousPosition := ⟨cx, cy⟩ } := by
  simp [onMouseMove, onTouchMove, handleRotation, hd, hm, mul_comm]

/-- Witness for C2 at `testDragState` with the pointer moving to
`(14, 26)`: the deltas are `(4, 6)`, so the rotation becomes
`y = 2 + 0.02`, `x = 1 + 0.03`. -/
theorem C2_drag_move_rotation_witness :
    testDragState.isDragging = true ∧ testDragState.model = some testModel ∧
    (onMouseMove ⟨14, 26⟩ testDragState =
      some { testDragState with
        model := some { testModel with rotation :=
          { testModel.rotation with
            y := testModel.rotation.y + 0.005 * (14 - testDragState.previousPosition.x),
            x := testModel.rotation.x + 0.005 * (26 - testDragState.previousPosition.y) } },
        previousPosition := ⟨14, 26⟩ } ∧
     onTouchMove ⟨14, 26⟩ testDragState =
      some { testDragState with
        model := some { testModel with rotation :=
          { testModel.rotation with
            y := testModel.rotation.y + 0.005 * (14 - testDragState.previousPosition.x),
            x := testModel.rotation.x + 0.005 * (26 - testDragState.previousPosition.y) } },
        previousPosition := ⟨14, 26⟩ }) :=
  ⟨by decide, by decide,
   C2_drag_move_rotation testDragState testModel 14 26 (by decide) (by decide)⟩

/-- C5: each toggle-rotation click flips the auto-rotate flag and
nothing else; an animation frame adds exactly `0.005` to the y rotation
angle when the flag is set and leaves the state untouched when it is
clear. -/
theorem C5_toggle_and_frame (s : ViewerState) (m : Model)
    (hm : s.model = some m) :
    onToggleRotation s = { s with isAutoRotating := !s.isAutoRotating } ∧
    (s.isAutoRotating = true →
      animateFrame s = some { s with model := some { m with rotation :=
        { m.rotation with y := m.rotation.y + 0.005 } } }) ∧
    (s.isAutoRotating = false → animateFrame s = some s) := by
  refine ⟨rfl, fun ha => ?_, fun ha => ?_⟩ <;> simp [animateFrame, ha, hm]

/-- Witness for C5 at `testAutoState` (auto-rotate on, model loaded). -/
theorem C5_toggle_and_frame_witness :
    testAutoState.model = some testModel ∧
    (onToggleRotation testAutoState =
      { testAutoState with isAutoRotating := !testAutoState.isAutoRotating } ∧
     (testAutoState.isAutoRotating = true →
       animateFrame testAutoState =
         some { testAutoState with model := some { testModel with rotation :=
           { testModel.rotation with y := testModel.rotation.y + 0.005 } } }) ∧
     (testAutoState.isAutoRotating = false → animateFrame testAutoState = some testAutoState)) :=
  ⟨by decide, C5_toggle_and_frame testAutoState testModel (by decide)⟩

/-- C3: for a loaded model with bounding-box size `(sx, sy, sz)` and
center `c`, `fitModelToContainer` moves the camera to
`(0, 0.3 * sy, 1.8 * |maxDim / (2 * tan(fovRad / 2))|)` with
`maxDim = max(sx, sy, sz)` and `fovRad` the field of view in radians,
and points it at `c`; a window resize re-runs exactly this computation
after updating the renderer size and aspect ratio. -/
theorem C3_camera_framing (M : JsMath) (s : ViewerState) (m : Model) (w h : ℚ)
    (hm : s.model = some m) :
    fitModelToContainer M s =
      some { s with camera := { s.camera with
        position := ⟨0, 0.3 * m.boxSize.y,
          1.8 * |max m.boxSize.x (max m.boxSize.y m.boxSize.z) /
                 (2 * M.tan (s.camera.fov * (M.pi / 180) / 2))|⟩,
        lookTarget := m.boxCenter } } ∧
    onWindowResize M w h s =
      some { s with
        rendererWidth := w, rendererHeight := h,
        camera := { s.camera with
          aspect := w / h,
          position := ⟨0, 0.3 * m.boxSize.y,
            1.8 * |max m.boxSize.x (max m.boxSize.y m.boxSize.z) /
                   (2 * M.tan (s.camera.fov * (M.pi / 180) / 2))|⟩,
          lookTarget := m.boxCenter } } := by
  constructor <;>
    simp [fitModelToContainer, onWindowResize, updateRendererSize,
          fitCameraToModel, hm, mul_comm]

/-- Witness for C3 at `testState` with `testMath` and a resize to
`10 × 5`: `maxDim = 6`, `fovRad = 3/4`, `cameraZ = 3`, camera position
`(0, 1.2, 5.4)`. -/
theorem C3_camera_framing_witness :
    testState.model = some testModel ∧
    (fitModelToContainer testMath testState =
      some { testState with camera := { testState.camera with
        position := ⟨0, 0.3 * testModel.boxSize.y,
          1.8 * |max testModel.boxSize.x (max testModel.boxSize.y testModel.boxSize.z) /
                 (2 * testMath.tan (testState.camera.fov * (testMath.pi / 180) / 2))|⟩,
        lookTarget := testModel.boxCenter } } ∧
     onWindowResize testMath 10 5 testState =
      some { testState with
        rendererWidth := 10, rendererHeight := 5,
        camera := { testState.camera with
          aspect := 10 / 5,
          position := ⟨0, 0.3 * testModel.boxSize.y,
            1.8 * |max testModel.boxSize.x (max testModel.boxSize.y testModel.boxSize.z) /
                   (2 * testMath.tan (testState.camera.fov * (testMath.pi / 180) / 2))|⟩,
          lookTarget := testModel.boxCenter } }) :=
  ⟨by decide, C3_camera_framing testMath testState testModel 10 5 (by decide)⟩

/-- C4: clicking reset-view with the model loaded re-frames the camera
from the model's bounding box and zeroes all three rotation angles,
while the drag flag, the previous pointer position and the auto-rotate
flag keep their values. -/
theorem C4_reset_view (M : JsMath) (s : ViewerState) (m : Model)
    (hm : s.model = some m) :
    onResetView M s =
      some { s with
        model := some { m with rotation := ⟨0, 0, 0⟩ },
        camera := fitCameraToModel M m s.camera } ∧
    (onResetView M s).map ViewerState.isDragging = some s.isDragging ∧
    (onResetView M s).map ViewerState.previousPosition = some s.previousPosition ∧
    (onResetView M s).map ViewerState.isAutoRotating = some s.isAutoRotating := by
  have h1 : onResetView M s =
      some { s with
        model := some { m with rotation := ⟨0, 0, 0⟩ },
        camera := fitCameraToModel M m s.camera } := by
    simp [onResetView, fitModelToContainer, hm]
  refine ⟨h1, ?_, ?_, ?_⟩ <;> rw [h1] <;> rfl

/-- Witness for C4 at `testState` with `testMath`. -/
theorem C4_reset_view_witness :
    testState.model = some testModel ∧
    (onResetView testMath testState =
      some { testState with
        model := some { testModel with rotation := ⟨0, 0, 0⟩ },
        camera := fitCameraToModel testMath testModel testState.camera } ∧
     (onResetView testMath testState).map ViewerState.isDragging = some testState.isDragging ∧
     (onResetView testMath testState).map ViewerState.previousPosition = some testState.previousPosition ∧
     (onResetView testMath testState).map ViewerState.isAutoRotating = some testState.isAutoRotating) :=
  ⟨by decide, C4_reset_view testMath testState testModel (by decide)⟩

/-- C9: the reset-view handler, the drag rotation handler, the
auto-rotating animation frame and the resize handler all dereference
the model unguarded: on a state whose model is still unassigned each of
them hits an undefined model (modelled as `none`), while on a state
whose model is assigned each is well-defined. -/
theorem C9_model_precondition (M : JsMath) (s t : ViewerState) (m : Model)
    (cx cy w h : ℚ)
    (hn : s.model = none) (ha : s.isAutoRotating = true)
    (ht : t.model = some m) :
    onResetView M s = none ∧
    handleRotation cx cy s = none ∧
    animateFrame s = none ∧
    onWindowResize M w h s = none ∧
    (onResetView M t).isSome ∧
    (handleRotation cx cy t).isSome ∧
    (animateFrame t).isSome ∧
    (onWindowResize M w h t).isSome := by
  refine ⟨?_, ?_, ?_, ?_, ?_, ?_, ?_, ?_⟩ <;>
    simp [onResetView, fitModelToContainer, handleRotation, animateFrame,
          onWindowResize, updateRendererSize, hn, ha, ht]
  · cases hb : t.isAutoRotating <;> simp [hb, ht]

/-- Witness for C9: `testUnloadedState` (no model, auto-rotating)
versus `testState` (model loaded). -/
theorem C9_model_precondition_witness :
    testUnloadedState.model = none ∧
    testUnloadedState.isAutoRotating = true ∧
    testState.model = some testModel ∧
    (onResetView testMath testUnloadedState = none ∧
     handleRotation 3 4 testUnloadedState = none ∧
     animateFrame testUnloadedState = none ∧
     onWindowResize testMath 10 5 testUnloadedState = none ∧
     (onResetView testMath testState).isSome ∧
     (handleRotation 3 4 testState).isSome ∧
     (animateFrame testState).isSome ∧
     (onWindowResize testMath 10 5 testState).isSome) :=
  ⟨by decide, by decide, by decide,
   C9_model_precondition testMath testUnloadedState testState testModel 3 4 10 5
     (by decide) (by decide) (by decide)⟩

/-- Folding mouse-move events over a dragging state with a loaded
model accumulates rotation: the x and y angles end at the start value
plus `0.005` times the displacement from the stored previous position
to the last move (telescoping over the intermediate positions). -/
theorem dragFoldRotation (moves : List Pos) (s : ViewerState) (m : Model)
    (hd : s.isDragging = true) (hm : s.model = some m) :
    (List.foldlM (fun st p => onMouseMove p st) s moves).map
        (fun st => st.model.map fun mm => (mm.rotation.x, mm.rotation.y))
      = some (some
          (m.rotation.x + 0.005 * ((moves.getLastD s.previousPosition).y - s.previousPosition.y),
           m.rotation.y + 0.005 * ((moves.getLastD s.previousPosition).x - s.previousPosition.x))) := by
  induction moves generalizing s m with
  | nil => simp [hm]
  | cons p ps ih =>
    have h1 : onMouseMove p s = some { s with
        model := some { m with rotation := { m.rotation with
          y := m.rotation.y + (p.x - s.previousPosition.x) * 0.005,
          x := m.rotation.x + (p.y - s.previousPosition.y) * 0.005 } },
        previousPosition := p } := by
      simp [onMouseMove, handleRotation, hd, hm]
    rw [List.foldlM_cons, h1, Option.bind_eq_bind, Option.some_bind,
        ih { s with
            model := some { m with rotation := { m.rotation with
              y := m.rotation.y + (p.x - s.previousPosition.x) * 0.005,
              x := m.rotation.x + (p.y - s.previousPosition.y) * 0.005 } },
            previousPosition := p }
          { m with rotation := { m.rotation with
              y := m.rotation.y + (p.x - s.previousPosition.x) * 0.005,
              x := m.rotation.x + (p.y - s.previousPosition.y) * 0.005 } }
          hd rfl]
    simp only [List.getLastD_cons, Option.some.injEq, Prod.mk.injEq]
    constructor <;> ring

/-- C10: a drag gesture — press at `p0`, then moves through any list of
positions — nets a rotation change of `0.005` times the displacement
from `p0` to the final position, independently of the intermediate
positions: the final x angle is
`x0 + 0.005 * (last.y - p0.y)` and the final y angle is
`y0 + 0.005 * (last.x - p0.x)`. -/
theorem C10_drag_homomorphism (s : ViewerState) (m : Model) (p0 : Pos)
    (moves : List Pos) (hm : s.model = some m) :
    (mouseDrag p0 moves s).map
        (fun st => st.model.map fun mm => (mm.rotation.x, mm.rotation.y))
      = some (some
          (m.rotation.x + 0.005 * ((moves.getLastD p0).y - p0.y),
           m.rotation.y + 0.005 * ((moves.getLastD p0).x - p0.x))) := by
  have h0 : (onMouseDown p0 s).isDragging = true := rfl
  have h1 : (onMouseDown p0 s).model = some m := by simp [onMouseDown, hm]
  have h2 : (onMouseDown p0 s).previousPosition = p0 := rfl
  unfold mouseDrag
  rw [dragFoldRotation moves (onMouseDown p0 s) m h0 h1, h2]

/-- Witness for C10: in `testState` (rotation `(1, 2, 3)`), pressing at
`(0, 0)` and moving through `(100, -40)` then `(30, 10)` ends with
`x = 1 + 0.005 * 10 = 1.05` and `y = 2 + 0.005 * 30 = 2.15`,
independent of the intermediate point. -/
theorem C10_drag_homomorphism_witness :
    testState.model = some testModel ∧
    (mouseDrag ⟨0, 0⟩ [⟨100, -40⟩, ⟨30, 10⟩] testState).map
        (fun st => st.model.map fun mm => (mm.rotation.x, mm.rotation.y))
      = some (some
          (testModel.rotation.x +
             0.005 * (([(⟨100, -40⟩ : Pos), ⟨30, 10⟩].getLastD ⟨0, 0⟩).y - (0 : ℚ)),
           testModel.rotation.y +
             0.005 * (([(⟨100, -40⟩ : Pos), ⟨30, 10⟩].getLastD ⟨0, 0⟩).x - (0 : ℚ)))) :=
  ⟨by decide,
   C10_drag_homomorphism testState testModel ⟨0, 0⟩ [⟨100, -40⟩, ⟨30, 10⟩] (by decide)⟩

/-- `handleRotation` never touches the loading indicator. -/
theorem handleRotation_keeps_indicator (cx cy : ℚ) (s t : ViewerState)
    (h : handleRotation cx cy s = some t) :
    t.loadingIndicator = s.loadingIndicator := by
  unfold handleRotation at h
  split at h
  · exact Option.noConfusion h
  · simp only [Option.some.injEq] at h
    subst h; rfl

/-- `onMouseMove` never touches the loading indicator. -/
theorem onMouseMove_keeps_indicator (e : Pos) (s t : ViewerState)
    (h : onMouseMove e s = some t) :
    t.loadingIndicator = s.loadingIndicator := by
  unfold onMouseMove at h
  split at h
  · simp only [Option.some.injEq] at h
    subst h; rfl
  · exact handleRotation_keeps_indicator e.x e.y s t h

/-- `onTouchMove` never touches the loading indicator. -/
theorem onTouchMove_keeps_indicator (p : Pos) (s t : ViewerState)
    (h : onTouchMove p s = some t) :
    t.loadingIndicator = s.loadingIndicator := by
  unfold onTouchMove at h
  split at h
  · simp only [Option.some.injEq] at h
    subst h; rfl
  · exact handleRotation_keeps_indicator p.x p.y s t h

/-- `fitModelToContainer` never touches the loading indicator. -/
theorem fitModelToContainer_keeps_indicator (M : JsMath) (s t : ViewerState)
    (h : fitModelToContainer M s = some t) :
    t.loadingIndicator = s.loadingIndicator := by
  unfold fitModelToContainer at h
  split at h
  · exact Option.noConfusion h
  · simp only [Option.some.injEq] at h
    subst h; rfl

/-- `onResetView` never touches the loading indicator. -/
theorem onResetView_keeps_indicator (M : JsMath) (s t : ViewerState)
    (h : onResetView M s = some t) :
    t.loadingIndicator = s.loadingIndicator := by
  unfold onResetView at h
  split at h
  · exact Option.noConfusion h
  next s1 hfit =>
    split at h
    · exact Option.noConfusion h
    · simp only [Option.some.injEq] at h
      subst h
      exact fitModelToContainer_keeps_indicator M s s1 hfit

/-- `onWindowResize` never touches the loading indicator. -/
theorem onWindowResize_keeps_indicator (M : JsMath) (w h : ℚ) (s t : ViewerState)
    (hr : onWindowResize M w h s = some t) :
    t.loadingIndicator = s.loadingIndicator := by
  unfold onWindowResize at hr
  exact fitModelToContainer_keeps_indicator M (updateRendererSize w h s) t hr

/-- `animateFrame` never touches the loading indicator. -/
theorem animateFrame_keeps_indicator (s t : ViewerState)
    (h : animateFrame s = some t) :
    t.loadingIndicator = s.loadingIndicator := by
  unfold animateFrame at h
  split at h
  · split at h
    · exact Option.noConfusion h
    · simp only [Option.some.injEq] at h
      subst h; rfl
  · simp only [Option.some.injEq] at h
    subst h; rfl

/-- C1: the loader's error callback writes the static message
`'Error loading model'` into the loading indicator, and it is the only
error path: every other operation of the program — the load kick-off,
the completion callback, every pointer, touch, button, resize and frame
handler — leaves the indicator's text exactly as it was. -/
theorem C1_single_error_path (M : JsMath) (s s1 s2 s3 s4 s5 : ViewerState)
    (g : Model) (e p q r : Pos) (w h : ℚ)
    (h1 : onMouseMove e s = some s1) (h2 : onTouchMove p s = some s2)
    (h3 : onResetView M s = some s3) (h4 : onWindowResize M w h s = some s4)
    (h5 : animateFrame s = some s5) :
    (onLoadError s).loadingIndicator.textContent = "Error loading model" ∧
    ((onLoadStart s).loadingIndicator.textContent = s.loadingIndicator.textContent ∧
     (onLoadSuccess M g s).loadingIndicator.textContent = s.loadingIndicator.textContent ∧
     (onMouseDown q s).loadingIndicator.textContent = s.loadingIndicator.textContent ∧
     (onMouseUp s).loadingIndicator.textContent = s.loadingIndicator.textContent ∧
     (onTouchStart r s).loadingIndicator.textContent = s.loadingIndicator.textContent ∧
     (onTouchEnd s).loadingIndicator.textContent = s.loadingIndicator.textContent ∧
     (onToggleRotation s).loadingIndicator.textContent = s.loadingIndicator.textContent ∧
     s1.loadingIndicator.textContent = s.loadingIndicator.textContent ∧
     s2.loadingIndicator.textContent = s.loadingIndicator.textContent ∧
     s3.loadingIndicator.textContent = s.loadingIndicator.textContent ∧
     s4.loadingIndicator.textContent = s.loadingIndicator.textContent ∧
     s5.loadingIndicator.textContent = s.loadingIndicator.textContent) :=
  ⟨rfl,
   rfl, rfl, rfl, rfl, rfl, rfl, rfl,
   congrArg LoadingIndicator.textContent (onMouseMove_keeps_indicator e s s1 h1),
   congrArg LoadingIndicator.textContent (onTouchMove_keeps_indicator p s s2 h2),
   congrArg LoadingIndicator.textContent (onResetView_keeps_indicator M s s3 h3),
   congrArg LoadingIndicator.textContent (onWindowResize_keeps_indicator M w h s s4 h4),
   congrArg LoadingIndicator.textContent (animateFrame_keeps_indicator s s5 h5)⟩

/-- Witness for C1 at `testState`: the move and frame handlers return
the state unchanged, reset-view yields `testResetResult`, and the
resize to `10 × 5` yields `testResizeResult`. -/
theorem C1_single_error_path_witness :
    (onMouseMove ⟨7, 9⟩ testState = some testState ∧
     onTouchMove ⟨3, 4⟩ testState = some testState ∧
     onResetView testMath testState = some testResetResult ∧
     onWindowResize testMath 10 5 testState = some testResizeResult ∧
     animateFrame testState = some testState) ∧
    ((onLoadError testState).loadingIndicator.textContent = "Error loading model" ∧
     ((onLoadStart testState).loadingIndicator.textContent = testState.loadingIndicator.textContent ∧
      (onLoadSuccess testMath testModel testState).loadingIndicator.textContent = testState.loadingIndicator.textContent ∧
      (onMouseDown ⟨1, 1⟩ testState).loadingIndicator.textContent = testState.loadingIndicator.textContent ∧
      (onMouseUp testState).loadingIndicator.textContent = testState.loadingIndicator.textContent ∧
      (onTouchStart ⟨2, 2⟩ testState).loadingIndicator.textContent = testState.loadingIndicator.textContent ∧
      (onTouchEnd testState).loadingIndicator.textContent = testState.loadingIndicator.textContent ∧
      (onToggleRotation testState).loadingIndicator.textContent = testState.loadingIndicator.textContent ∧
      testState.loadingIndicator.textContent = testState.loadingIndicator.textContent ∧
      testState.loadingIndicator.textContent = testState.loadingIndicator.textContent ∧
      testResetResult.loadingIndicator.textContent = testState.loadingIndicator.textContent ∧
      testResizeResult.loadingIndicator.textContent = testState.loadingIndicator.textContent ∧
      testState.loadingIndicator.textContent = testState.loadingIndicator.textContent)) :=
  ⟨⟨by norm_num [onMouseMove, testState],
    by norm_num [onTouchMove, testState],
    by norm_num [onResetView, fitModelToContainer, fitCameraToModel, testState,
                 testModel, testMath, testResetResult, testFitCamera, initCamera],
    by norm_num [onWindowResize, updateRendererSize, fitModelToContainer,
                 fitCameraToModel, testState, testModel, testMath,
                 testResizeResult, testFitCamera, initCamera],
    by norm_num [animateFrame, testState]⟩,
   C1_single_error_path testMath testState testState testState testResetResult
     testResizeResult testState testModel ⟨7, 9⟩ ⟨3, 4⟩ ⟨1, 1⟩ ⟨2, 2⟩ 10 5
     (by norm_num [onMouseMove, testState])
     (by norm_num [onTouchMove, testState])
     (by norm_num [onResetView, fitModelToContainer, fitCameraToModel, testState,
                   testModel, testMath, testResetResult, testFitCamera, initCamera])
     (by norm_num [onWindowResize, updateRendererSize, fitModelToContainer,
                   fitCameraToModel, testState, testModel, testMath,
                   testResizeResult, testFitCamera, initCamera])
     (by norm_num [animateFrame, testState])⟩

/-- C6 fails as stated: the resize handler — one of the handlers the
claim quantifies over — writes components outside the listed set.  At
`testState`, resizing to `10 × 5` moves the camera position and the
renderer size. -/
theorem C6_state_footprint_counterexample :
    onWindowResize testMath 10 5 testState = some testResizeResult ∧
    testResizeResult.camera.position ≠ testState.camera.position ∧
    testResizeResult.rendererWidth ≠ testState.rendererWidth := by
  refine ⟨?_, ?_, ?_⟩
  · norm_num [onWindowResize, updateRendererSize, fitModelToContainer,
              fitCameraToModel, testState, testModel, testMath,
              testResizeResult, testFitCamera, initCamera]
  · norm_num [testResizeResult, testFitCamera, testState, initCamera]
  · norm_num [testResizeResult, testFitCamera, testState, initCamera]

/-- `handleRotation` writes only the rotation x and y angles and the
previous position. -/
theorem handleRotation_footprint (cx cy : ℚ) (s t : ViewerState) (ms mt : Model)
    (h : handleRotation cx cy s = some t) (hs : s.model = some ms)
    (ht : t.model = some mt) :
    t.isDragging = s.isDragging ∧ t.isAutoRotating = s.isAutoRotating ∧
    t.camera = s.camera ∧ t.rendererWidth = s.rendererWidth ∧
    t.rendererHeight = s.rendererHeight ∧ t.lights = s.lights ∧
    t.modelInScene = s.modelInScene ∧ t.loadingIndicator = s.loadingIndicator ∧
    mt.rotation.z = ms.rotation.z ∧ mt.boxCenter = ms.boxCenter ∧
    mt.boxSize = ms.boxSize ∧ mt.meshes = ms.meshes := by
  unfold handleRotation at h
  rw [hs] at h
  simp only [Option.some.injEq] at h
  subst h
  simp only [Option.some.injEq] at ht
  subst ht
  exact ⟨rfl, rfl, rfl, rfl, rfl, rfl, rfl, rfl, rfl, rfl, rfl, rfl⟩

/-- `onMouseMove` writes only the rotation x and y angles and the
previous position. -/
theorem onMouseMove_footprint (e : Pos) (s t : ViewerState) (ms mt : Model)
    (h : onMouseMove e s = some t) (hs : s.model = some ms)
    (ht : t.model = some mt) :
    t.isDragging = s.isDragging ∧ t.isAutoRotating = s.isAutoRotating ∧
    t.camera = s.camera ∧ t.rendererWidth = s.rendererWidth ∧
    t.rendererHeight = s.rendererHeight ∧ t.lights = s.lights ∧
    t.modelInScene = s.modelInScene ∧ t.loadingIndicator = s.loadingIndicator ∧
    mt.rotation.z = ms.rotation.z ∧ mt.boxCenter = ms.boxCenter ∧
    mt.boxSize = ms.boxSize ∧ mt.meshes = ms.meshes := by
  unfold onMouseMove at h
  split at h
  · simp only [Option.some.injEq] at h
    subst h
    rw [hs] at ht
    simp only [Option.some.injEq] at ht
    subst ht
    exact ⟨rfl, rfl, rfl, rfl, rfl, rfl, rfl, rfl, rfl, rfl, rfl, rfl⟩
  · exact handleRotation_footprint e.x e.y s t ms mt h hs ht

/-- `onTouchMove` writes only the rotation x and y angles and the
previous position. -/
theorem onTouchMove_footprint (p : Pos) (s t : ViewerState) (ms mt : Model)
    (h : onTouchMove p s = some t) (hs : s.model = some ms)
    (ht : t.model = some mt) :
    t.isDragging = s.isDragging ∧ t.isAutoRotating = s.isAutoRotating ∧
    t.camera = s.camera ∧ t.rendererWidth = s.rendererWidth ∧
    t.rendererHeight = s.rendererHeight ∧ t.lights = s.lights ∧
    t.modelInScene = s.modelInScene ∧ t.loadingIndicator = s.loadingIndicator ∧
    mt.rotation.z = ms.rotation.z ∧ mt.boxCenter = ms.boxCenter ∧
    mt.boxSize = ms.boxSize ∧ mt.meshes = ms.meshes := by
  unfold onTouchMove at h
  split at h
  · simp only [Option.some.injEq] at h
    subst h
    rw [hs] at ht
    simp only [Option.some.injEq] at ht
    subst ht
    exact ⟨rfl, rfl, rfl, rfl, rfl, rfl, rfl, rfl, rfl, rfl, rfl, rfl⟩
  · exact handleRotation_footprint p.x p.y s t ms mt h hs ht

/-- `onResetView` writes only the rotation angles and the camera. -/
theorem onResetView_footprint (M : JsMath) (s t : ViewerState) (ms : Model)
    (h : onResetView M s = some t) (hs : s.model = some ms) :
    t.isDragging = s.isDragging ∧ t.previousPosition = s.previousPosition ∧
    t.isAutoRotating = s.isAutoRotating ∧ t.rendererWidth = s.rendererWidth ∧
    t.rendererHeight = s.rendererHeight ∧ t.lights = s.lights ∧
    t.modelInScene = s.modelInScene ∧ t.loadingIndicator = s.loadingIndicator ∧
    t.model.map Model.boxCenter = some ms.boxCenter ∧
    t.model.map Model.boxSize = some ms.boxSize ∧
    t.model.map Model.meshes = some ms.meshes := by
  have hr : onResetView M s = some { s with
      model := some { ms with rotation := ⟨0, 0, 0⟩ },
      camera := fitCameraToModel M ms s.camera } := by
    simp [onResetView, fitModelToContainer, hs]
  rw [hr] at h
  simp only [Option.some.injEq] at h
  subst h
  exact ⟨rfl, rfl, rfl, rfl, rfl, rfl, rfl, rfl, rfl, rfl, rfl⟩

/-- `onWindowResize` writes only the camera and the renderer size. -/
theorem onWindowResize_footprint (M : JsMath) (w h : ℚ) (s t : ViewerState)
    (ms : Model) (hr : onWindowResize M w h s = some t) (hs : s.model = some ms) :
    t.model = s.model ∧ t.isDragging = s.isDragging ∧
    t.previousPosition = s.previousPosition ∧
    t.isAutoRotating = s.isAutoRotating ∧ t.lights = s.lights ∧
    t.modelInScene = s.modelInScene ∧ t.loadingIndicator = s.loadingIndicator := by
  have he : onWindowResize M w h s = some { s with
      rendererWidth := w, rendererHeight := h,
      camera := fitCameraToModel M ms { s.camera with aspect := w / h } } := by
    simp [onWindowResize, updateRendererSize, fitModelToContainer, hs]
  rw [he] at hr
  simp only [Option.some.injEq] at hr
  subst hr
  exact ⟨rfl, rfl, rfl, rfl, rfl, rfl, rfl⟩

/-- `animateFrame` writes only the rotation y angle. -/
theorem animateFrame_footprint (s t : ViewerState) (ms mt : Model)
    (h : animateFrame s = some t) (hs : s.model = some ms)
    (ht : t.model = some mt) :
    t.isDragging = s.isDragging ∧ t.previousPosition = s.previousPosition ∧
    t.isAutoRotating = s.isAutoRotating ∧ t.camera = s.camera ∧
    t.rendererWidth = s.rendererWidth ∧ t.rendererHeight = s.rendererHeight ∧
    t.lights = s.lights ∧ t.modelInScene = s.modelInScene ∧
    t.loadingIndicator = s.loadingIndicator ∧
    mt.rotation.x = ms.rotation.x ∧ mt.rotation.z = ms.rotation.z ∧
    mt.boxCenter = ms.boxCenter ∧ mt.boxSize = ms.boxSize ∧
    mt.meshes = ms.meshes := by
  unfold animateFrame at h
  split at h
  · rw [hs] at h
    simp only [Option.some.injEq] at h
    subst h
    simp only [Option.some.injEq] at ht
    subst ht
    exact ⟨rfl, rfl, rfl, rfl, rfl, rfl, rfl, rfl, rfl, rfl, rfl, rfl, rfl, rfl⟩
  · simp only [Option.some.injEq] at h
    subst h
    rw [hs] at ht
    simp only [Option.some.injEq] at ht
    subst ht
    exact ⟨rfl, rfl, rfl, rfl, rfl, rfl, rfl, rfl, rfl, rfl, rfl, rfl, rfl, rfl⟩

/-- C6 (amended): the pointer, touch, toggle-button and frame handlers
write only the drag flag, the previous pointer position, the model's x
and y rotation angles and the auto-rotate flag (with z written only by
the reset handler); the reset-view and window-resize handlers
additionally write the camera framing state, and the resize handler the
renderer size. -/
theorem C6_handler_footprints (M : JsMath) (s s1 s2 s3 s4 s5 : ViewerState)
    (m m1 m2 m5 : Model) (e p q r : Pos) (w h : ℚ)
    (hm : s.model = some m)
    (h1 : onMouseMove e s = some s1) (hm1 : s1.model = some m1)
    (h2 : onTouchMove p s = some s2) (hm2 : s2.model = some m2)
    (h3 : onResetView M s = some s3)
    (h4 : onWindowResize M w h s = some s4)
    (h5 : animateFrame s = some s5) (hm5 : s5.model = some m5) :
    (onMouseDown q s = { s with isDragging := true, previousPosition := q } ∧
     onTouchStart r s = { s with isDragging := true, previousPosition := r } ∧
     onMouseUp s = { s with isDragging := false } ∧
     onTouchEnd s = { s with isDragging := false } ∧
     onToggleRotation s = { s with isAutoRotating := !s.isAutoRotating }) ∧
    (s1.isDragging = s.isDragging ∧ s1.isAutoRotating = s.isAutoRotating ∧
     s1.camera = s.camera ∧ s1.rendererWidth = s.rendererWidth ∧
     s1.rendererHeight = s.rendererHeight ∧ s1.lights = s.lights ∧
     s1.modelInScene = s.modelInScene ∧ s1.loadingIndicator = s.loadingIndicator ∧
     m1.rotation.z = m.rotation.z ∧ m1.boxCenter = m.boxCenter ∧
     m1.boxSize = m.boxSize ∧ m1.meshes = m.meshes) ∧
    (s2.isDragging = s.isDragging ∧ s2.isAutoRotating = s.isAutoRotating ∧
     s2.camera = s.camera ∧ s2.rendererWidth = s.rendererWidth ∧
     s2.rendererHeight = s.rendererHeight ∧ s2.lights = s.lights ∧
     s2.modelInScene = s.modelInScene ∧ s2.loadingIndicator = s.loadingIndicator ∧
     m2.rotation.z = m.rotation.z ∧ m2.boxCenter = m.boxCenter ∧
     m2.boxSize = m.boxSize ∧ m2.meshes = m.meshes) ∧
    (s3.isDragging = s.isDragging ∧ s3.previousPosition = s.previousPosition ∧
     s3.isAutoRotating = s.isAutoRotating ∧ s3.rendererWidth = s.rendererWidth ∧
     s3.rendererHeight = s.rendererHeight ∧ s3.lights = s.lights ∧
     s3.modelInScene = s.modelInScene ∧ s3.loadingIndicator = s.loadingIndicator ∧
     s3.model.map Model.boxCenter = some m.boxCenter ∧
     s3.model.map Model.boxSize = some m.boxSize ∧
     s3.model.map Model.meshes = some m.meshes) ∧
    (s4.model = s.model ∧ s4.isDragging = s.isDragging ∧
     s4.previousPosition = s.previousPosition ∧
     s4.isAutoRotating = s.isAutoRotating ∧ s4.lights = s.lights ∧
     s4.modelInScene = s.modelInScene ∧ s4.loadingIndicator = s.loadingIndicator) ∧
    (s5.isDragging = s.isDragging ∧ s5.previousPosition = s.previousPosition ∧
     s5.isAutoRotating = s.isAutoRotating ∧ s5.camera = s.camera ∧
     s5.rendererWidth = s.rendererWidth ∧ s5.rendererHeight = s.rendererHeight ∧
     s5.lights = s.lights ∧ s5.modelInScene = s.modelInScene ∧
     s5.loadingIndicator = s.loadingIndicator ∧
     m5.rotation.x = m.rotation.x ∧ m5.rotation.z = m.rotation.z ∧
     m5.boxCenter = m.boxCenter ∧ m5.boxSize = m.boxSize ∧
     m5.meshes = m.meshes) :=
  ⟨⟨rfl, rfl, rfl, rfl, rfl⟩,
   onMouseMove_footprint e s s1 m m1 h1 hm hm1,
   onTouchMove_footprint p s s2 m m2 h2 hm hm2,
   onResetView_footprint M s s3 m h3 hm,
   onWindowResize_footprint M w h s s4 m h4 hm,
   animateFrame_footprint s s5 m m5 h5 hm hm5⟩

/-- Witness for the amended C6 at `testState`, with the move and frame
handlers returning the state unchanged, reset-view yielding
`testResetResult` and a resize to `10 × 5` yielding
`testResizeResult`. -/
theorem C6_handler_footprints_witness :
    (testState.model = some testModel ∧
     onMouseMove ⟨7, 9⟩ testState = some testState ∧
     onTouchMove ⟨3, 4⟩ testState = some testState ∧
     onResetView testMath testState = some testResetResult ∧
     onWindowResize testMath 10 5 testState = some testResizeResult ∧
     animateFrame testState = some testState) ∧
    ((onMouseDown ⟨1, 1⟩ testState =
        { testState with isDragging := true, previousPosition := ⟨1, 1⟩ } ∧
      onTouchStart ⟨2, 2⟩ testState =
        { testState with isDragging := true, previousPosition := ⟨2, 2⟩ } ∧
      onMouseUp testState = { testState with isDragging := false } ∧
      onTouchEnd testState = { testState with isDragging := false } ∧
      onToggleRotation testState =
        { testState with isAutoRotating := !testState.isAutoRotating }) ∧
     (testState.isDragging = testState.isDragging ∧
      testState.isAutoRotating = testState.isAutoRotating ∧
      testState.camera = testState.camera ∧
      testState.rendererWidth = testState.rendererWidth ∧
      testState.rendererHeight = testState.rendererHeight ∧
      testState.lights = testState.lights ∧
      testState.modelInScene = testState.modelInScene ∧
      testState.loadingIndicator = testState.loadingIndicator ∧
      testModel.rotation.z = testModel.rotation.z ∧
      testModel.boxCenter = testModel.boxCenter ∧
      testModel.boxSize = testModel.boxSize ∧
      testModel.meshes = testModel.meshes) ∧
     (testState.isDragging = testState.isDragging ∧
      testState.isAutoRotating = testState.isAutoRotating ∧
      testState.camera = testState.camera ∧
      testState.rendererWidth = testState.rendererWidth ∧
      testState.rendererHeight = testState.rendererHeight ∧
      testState.lights = testState.lights ∧
      testState.modelInScene = testState.modelInScene ∧
      testState.loadingIndicator = testState.loadingIndicator ∧
      testModel.rotation.z = testModel.rotation.z ∧
      testModel.boxCenter = testModel.boxCenter ∧
      testModel.boxSize = testModel.boxSize ∧
      testModel.meshes = testModel.meshes) ∧
     (testResetResult.isDragging = testState.isDragging ∧
      testResetResult.previousPosition = testState.previousPosition ∧
      testResetResult.isAutoRotating = testState.isAutoRotating ∧
      testResetResult.rendererWidth = testState.rendererWidth ∧
      testResetResult.rendererHeight = testState.rendererHeight ∧
      testResetResult.lights = testState.lights ∧
      testResetResult.modelInScene = testState.modelInScene ∧
      testResetResult.loadingIndicator = testState.loadingIndicator ∧
      testResetResult.model.map Model.boxCenter = some testModel.boxCenter ∧
      testResetResult.model.map Model.boxSize = some testModel.boxSize ∧
      testResetResult.model.map Model.meshes = some testModel.meshes) ∧
     (testResizeResult.model = testState.model ∧
      testResizeResult.isDragging = testState.isDragging ∧
      testResizeResult.previousPosition = testState.previousPosition ∧
      testResizeResult.isAutoRotating = testState.isAutoRotating ∧
      testResizeResult.lights = testState.lights ∧
      testResizeResult.modelInScene = testState.modelInScene ∧
      testResizeResult.loadingIndicator = testState.loadingIndicator) ∧
     (testState.isDragging = testState.isDragging ∧
      testState.previousPosition = testState.previousPosition ∧
      testState.isAutoRotating = testState.isAutoRotating ∧
      testState.camera = testState.camera ∧
      testState.rendererWidth = testState.rendererWidth ∧
      testState.rendererHeight = testState.rendererHeight ∧
      testState.lights = testState.lights ∧
      testState.modelInScene = testState.modelInScene ∧
      testState.loadingIndicator = testState.loadingIndicator ∧
      testModel.rotation.x = testModel.rotation.x ∧
      testModel.rotation.z = testModel.rotation.z ∧
      testModel.boxCenter = testModel.boxCenter ∧
      testModel.boxSize = testModel.boxSize ∧
      testModel.meshes = testModel.meshes)) :=
  ⟨⟨by decide,
    by norm_num [onMouseMove, testState],
    by norm_num [onTouchMove, testState],
    by norm_num [onResetView, fitModelToContainer, fitCameraToModel, testState,
                 testModel, testMath, testResetResult, testFitCamera, initCamera],
    by norm_num [onWindowResize, updateRendererSize, fitModelToContainer,
                 fitCameraToModel, testState, testModel, testMath,
                 testResizeResult, testFitCamera, initCamera],
    by norm_num [animateFrame, testState]⟩,
   C6_handler_footprints testMath testState testState testState testResetResult
     testResizeResult testState testModel testModel testModel testModel
     ⟨7, 9⟩ ⟨3, 4⟩ ⟨1, 1⟩ ⟨2, 2⟩ 10 5
     (by decide)
     (by norm_num [onMouseMove, testState]) (by decide)
     (by norm_num [onTouchMove, testState]) (by decide)
     (by norm_num [onResetView, fitModelToContainer, fitCameraToModel, testState,
                   testModel, testMath, testResetResult, testFitCamera, initCamera])
     (by norm_num [onWindowResize, updateRendererSize, fitModelToContainer,
                   fitCameraToModel, testState, testModel, testMath,
                   testResizeResult, testFitCamera, initCamera])
     (by norm_num [animateFrame, testState]) (by decide)⟩

end Cybermodel
